import Mathlib

/-!
Shallow embedding of the XP reconciliation and ledger service in `src/app.py`
(FastAPI + PostgreSQL). The four database tables become association lists
keyed by strings; each endpoint handler becomes a pure function from its
request parameters and the database state to a typed result paired with
the new database state. Wall-clock reads (`datetime.datetime.utcnow()`)
are passed in explicitly as a `now` parameter.
-/

namespace AkDataBot

/-- A row of the `xp_data` table: `userId` is the association-list key. -/
structure BalanceRecord where
  username : String
  xp : Int
  offenseData : Option String
  last_updated : Int
deriving Repr, DecidableEq

/-- A row of the `xp_history` table (the serial `id` column is just the
position in the list). -/
structure HistEntry where
  userId : String
  xp_change : Int
  timestamp : Int
deriving Repr, DecidableEq

/-- The whole database state: `xp_data` keyed by `userId`, `stored_xp`
keyed by `discord_id`, `user_mappings` mapping `discord_id` to
`roblox_user_id` (the key `discord_id` is unique; `roblox_user_id` is not
constrained to be unique). -/
structure DBState where
  xp_data : List (String × BalanceRecord)
  xp_history : List HistEntry
  stored_xp : List (String × Int)
  user_mappings : List (String × String)
deriving Repr, DecidableEq

/-- `SELECT ... WHERE key = k` + `fetchone` on a unique-key table. -/
def alookup {β : Type} (k : String) : List (String × β) → Option β
  | [] => none
  | (k', v) :: rest => if k' = k then some v else alookup k rest

/-- `INSERT ... ON CONFLICT (key) DO UPDATE` / `UPDATE ... WHERE key = k`
on a unique-key table: replace the row if present, else append. -/
def aupsert {β : Type} (k : String) (v : β) : List (String × β) → List (String × β)
  | [] => [(k, v)]
  | (k', v') :: rest => if k' = k then (k, v) :: rest else (k', v') :: aupsert k v rest

/-- `DELETE FROM ... WHERE key = k`. -/
def aerase {β : Type} (k : String) : List (String × β) → List (String × β)
  | [] => []
  | (k', v') :: rest => if k' = k then aerase k rest else (k', v') :: aerase k rest

/-- `SELECT discord_id FROM user_mappings WHERE roblox_user_id = r` +
`fetchone`: the first row whose value is `r` (the column is not unique, so
`fetchone` picks a row; the embedding fixes list order as that choice). -/
def afindRev (r : String) : List (String × String) → Option String
  | [] => none
  | (d, v) :: rest => if v = r then some d else afindRev r rest

/-- Result of the `/update_xp` handler. -/
inductive UpdateResult
  | badRequest (detail : String)
  | ignored
  | success (xp : Int) (timestamp : Int)
deriving Repr, DecidableEq

/-- The `/update_xp` handler (`update_xp` in `src/app.py`). A missing
(`None`/empty-string falsy) `userId` or `username` and a negative `xp`
are rejected up front; then the stale-timestamp guard, the upsert into
`xp_data`, and the conditional append to `xp_history`. When no row exists
the code uses `old_xp = 0` and `old_timestamp = 0`. -/
def update_xp (user_id username : String) (xp : Int) (offense_data : Option String)
    (timestamp : Int) (s : DBState) : UpdateResult × DBState :=
  if user_id = "" ∨ username = "" then
    (UpdateResult.badRequest "Missing required data", s)
  else if xp < 0 then
    (UpdateResult.badRequest "XP must be a non-negative integer", s)
  else
    let row := alookup user_id s.xp_data
    let old_xp : Int := match row with | some r => r.xp | none => 0
    let old_timestamp : Int := match row with | some r => r.last_updated | none => 0
    if timestamp ≤ old_timestamp then
      (UpdateResult.ignored, s)
    else
      let xp_change := xp - old_xp
      let s1 := { s with
        xp_data := aupsert user_id ⟨username, xp, offense_data, timestamp⟩ s.xp_data }
      let s2 := if xp_change ≠ 0
        then { s1 with xp_history := s1.xp_history ++ [⟨user_id, xp_change, timestamp⟩] }
        else s1
      (UpdateResult.success xp timestamp, s2)

/-- Result of the `/set_xp` handler. -/
inductive SetResult
  | badRequest (detail : String)
  | notFound
  | success (newXp : Int) (timestamp : Int)
deriving Repr, DecidableEq

/-- The `/set_xp` handler (`set_xp` in `src/app.py`): trusted absolute
set; generates its own timestamp (`now`), fails when the user has no
`xp_data` row, updates only `xp` and `last_updated`, and appends a
history entry exactly when the delta is nonzero. -/
def set_xp (user_id : String) (new_xp : Int) (now : Int) (s : DBState) :
    SetResult × DBState :=
  if user_id = "" then
    (SetResult.badRequest "Missing userId or xp", s)
  else if new_xp < 0 then
    (SetResult.badRequest "XP must be a non-negative integer", s)
  else
    match alookup user_id s.xp_data with
    | none => (SetResult.notFound, s)
    | some row =>
      let xp_change := new_xp - row.xp
      let s1 := { s with
        xp_data := aupsert user_id { row with xp := new_xp, last_updated := now } s.xp_data }
      let s2 := if xp_change ≠ 0
        then { s1 with xp_history := s1.xp_history ++ [⟨user_id, xp_change, now⟩] }
        else s1
      (SetResult.success new_xp now, s2)

/-- Result of the `/store_xp` handler. The payload field of `success` is
exactly the `stored_xp` field of the JSON response. -/
inductive StoreResult
  | badRequest (detail : String)
  | success (stored_xp : Int)
deriving Repr, DecidableEq

/-- The `/store_xp` handler (`store_xp` in `src/app.py`): atomic
`INSERT ... ON CONFLICT DO UPDATE SET stored_xp = stored_xp + amount`;
the JSON response carries `xp_to_store`, the amount from this request. -/
def store_xp (discord_id : String) (xp_to_store : Int) (s : DBState) :
    StoreResult × DBState :=
  if discord_id = "" then
    (StoreResult.badRequest "Missing discord_id or xp", s)
  else if xp_to_store < 0 then
    (StoreResult.badRequest "XP must be non-negative", s)
  else
    let newTotal : Int := match alookup discord_id s.stored_xp with
      | some prev => prev + xp_to_store
      | none => xp_to_store
    (StoreResult.success xp_to_store,
      { s with stored_xp := aupsert discord_id newTotal s.stored_xp })

/-- Result of the two redemption handlers. -/
inductive RedeemResult
  | missingInput
  | unverified
  | nothingToRedeem
  | receiverUnknown
  | success (redeemed_xp : Int) (new_xp : Int)
deriving Repr, DecidableEq

/-- The `/redeem_xp` handler (`redeem_xp` in `src/app.py`), keyed by
`discord_id`: resolve the link, read the stash, read the receiver's
balance, write the credited balance with `last_updated = now`, append the
history entry, delete the stash row. Failure paths mutate nothing. -/
def redeem_xp (discord_id : String) (now : Int) (s : DBState) :
    RedeemResult × DBState :=
  match alookup discord_id s.user_mappings with
  | none => (RedeemResult.unverified, s)
  | some roblox_user_id =>
    match alookup discord_id s.stored_xp with
    | none => (RedeemResult.nothingToRedeem, s)
    | some stored =>
      if stored ≤ 0 then (RedeemResult.nothingToRedeem, s)
      else
        match alookup roblox_user_id s.xp_data with
        | none => (RedeemResult.receiverUnknown, s)
        | some xp_row =>
          let new_xp := xp_row.xp + stored
          (RedeemResult.success stored new_xp,
            { s with
              xp_data := aupsert roblox_user_id
                { xp_row with xp := new_xp, last_updated := now } s.xp_data,
              xp_history := s.xp_history ++ [⟨roblox_user_id, stored, now⟩],
              stored_xp := aerase discord_id s.stored_xp })

/-- The `/redeem_xp_ingame` handler (`redeem_xp_ingame` in `src/app.py`),
keyed by `roblox_user_id`: rejects a falsy (empty) id, reverse-resolves
the link via `afindRev`, then proceeds exactly as `redeem_xp`. -/
def redeem_xp_ingame (roblox_user_id : String) (now : Int) (s : DBState) :
    RedeemResult × DBState :=
  if roblox_user_id = "" then
    (RedeemResult.missingInput, s)
  else
    match afindRev roblox_user_id s.user_mappings with
    | none => (RedeemResult.unverified, s)
    | some discord_id =>
      match alookup discord_id s.stored_xp with
      | none => (RedeemResult.nothingToRedeem, s)
      | some stored =>
        if stored ≤ 0 then (RedeemResult.nothingToRedeem, s)
        else
          match alookup roblox_user_id s.xp_data with
          | none => (RedeemResult.receiverUnknown, s)
          | some xp_row =>
            let new_xp := xp_row.xp + stored
            (RedeemResult.success stored new_xp,
              { s with
                xp_data := aupsert roblox_user_id
                  { xp_row with xp := new_xp, last_updated := now } s.xp_data,
                xp_history := s.xp_history ++ [⟨roblox_user_id, stored, now⟩],
                stored_xp := aerase discord_id s.stored_xp })

/-- The current balance of an identity as the read paths see it: the
`xp` column of its `xp_data` row, or 0 if no row exists (this is also the
`old_xp` default inside `update_xp`). -/
def currentXp (uid : String) (s : DBState) : Int :=
  match alookup uid s.xp_data with
  | some r => r.xp
  | none => 0

/-- The stored `last_updated` of an identity, with the same default 0 an
absent row gets inside `update_xp`. -/
def oldTimestamp (uid : String) (s : DBState) : Int :=
  match alookup uid s.xp_data with
  | some r => r.last_updated
  | none => 0

/-- Sum of the `xp_change` deltas of the history entries of one identity. -/
def historySum (uid : String) : List HistEntry → Int
  | [] => 0
  | e :: rest => (if e.userId = uid then e.xp_change else 0) + historySum uid rest

/-- The ledger-replay invariant: for every identity, the deltas in
`xp_history` sum to the identity's current balance. -/
def LedgerInvariant (s : DBState) : Prop :=
  ∀ uid, historySum uid s.xp_history = currentXp uid s

/-! ### Association-list lemmas -/

theorem alookup_aupsert_self {β : Type} (k : String) (v : β) (l : List (String × β)) :
    alookup k (aupsert k v l) = some v := by
  induction l with
  | nil => simp [alookup, aupsert]
  | cons hd tl ih =>
    obtain ⟨k', v'⟩ := hd
    by_cases h : k' = k
    · subst h; simp [alookup, aupsert]
    · simp [alookup, aupsert, h, ih]

theorem alookup_aupsert_ne {β : Type} (k j : String) (v : β) (l : List (String × β))
    (h : j ≠ k) : alookup j (aupsert k v l) = alookup j l := by
  induction l with
  | nil =>
    have hk : k ≠ j := fun hh => h hh.symm
    simp [alookup, aupsert, hk]
  | cons hd tl ih =>
    obtain ⟨k', v'⟩ := hd
    by_cases hk : k' = k
    · subst hk
      have hkj : k' ≠ j := fun hh => h hh.symm
      simp [alookup, aupsert, hkj]
    · by_cases hj : k' = j
      · simp [alookup, aupsert, hk, hj, h]
      · simp [alookup, aupsert, hk, hj, ih]

theorem alookup_aerase_self {β : Type} (k : String) (l : List (String × β)) :
    alookup k (aerase k l) = none := by
  induction l with
  | nil => simp [alookup, aerase]
  | cons hd tl ih =>
    obtain ⟨k', v'⟩ := hd
    by_cases h : k' = k
    · simp [aerase, h, ih]
    · simp [alookup, aerase, h, ih]

theorem afindRev_eq_of_unique (S R : String) (m : List (String × String))
    (hm : alookup S m = some R) (huniq : ∀ p ∈ m, p.2 = R → p.1 = S) :
    afindRev R m = some S := by
  induction m with
  | nil => simp [alookup] at hm
  | cons hd tl ih =>
    obtain ⟨d, v⟩ := hd
    by_cases hv : v = R
    · have hdS : d = S := huniq (d, v) (List.mem_cons_self _ _) hv
      simp [afindRev, hv, hdS]
    · have hdS : d ≠ S := by
        intro hds
        simp only [alookup, if_pos hds] at hm
        exact hv (Option.some.inj hm)
      rw [afindRev, if_neg hv]
      apply ih
      · simpa only [alookup, if_neg hdS] using hm
      · intro p hp hpv
        exact huniq p (List.mem_cons_of_mem _ hp) hpv

/-! ### History-sum lemmas -/

theorem historySum_append (uid : String) (h : List HistEntry) (e : HistEntry) :
    historySum uid (h ++ [e]) =
      historySum uid h + (if e.userId = uid then e.xp_change else 0) := by
  induction h with
  | nil => simp [historySum]
  | cons x rest ih => simp [historySum, ih]; ring

theorem historySum_eq_sum_map (uid : String) (l : List HistEntry) :
    historySum uid l = (l.map fun e => if e.userId = uid then e.xp_change else 0).sum := by
  induction l with
  | nil => rfl
  | cons x rest ih => simp [historySum, ih]

theorem historySum_perm (uid : String) (l l' : List HistEntry) (h : l.Perm l') :
    historySum uid l = historySum uid l' := by
  rw [historySum_eq_sum_map, historySum_eq_sum_map]
  exact List.Perm.sum_eq (h.map _)

/-! ### Reading the balance store -/

theorem currentXp_eq_some (u : String) (s : DBState) (r : BalanceRecord)
    (h : alookup u s.xp_data = some r) : currentXp u s = r.xp := by
  simp [currentXp, h]

theorem currentXp_eq_none (u : String) (s : DBState)
    (h : alookup u s.xp_data = none) : currentXp u s = 0 := by
  simp [currentXp, h]

/-! ### Characterization of the handlers in terms of the read model -/

theorem update_xp_eq (uid name : String) (xp t : Int) (off : Option String) (s : DBState) :
    update_xp uid name xp off t s =
      if uid = "" ∨ name = "" then (UpdateResult.badRequest "Missing required data", s)
      else if xp < 0 then (UpdateResult.badRequest "XP must be a non-negative integer", s)
      else if t ≤ oldTimestamp uid s then (UpdateResult.ignored, s)
      else
        (UpdateResult.success xp t,
          if xp - currentXp uid s ≠ 0 then
            { s with xp_data := aupsert uid ⟨name, xp, off, t⟩ s.xp_data,
                     xp_history := s.xp_history ++ [⟨uid, xp - currentXp uid s, t⟩] }
          else
            { s with xp_data := aupsert uid ⟨name, xp, off, t⟩ s.xp_data }) := by
  unfold update_xp currentXp oldTimestamp
  rcases alookup uid s.xp_data with _ | rec <;> rfl

theorem set_xp_eq (uid : String) (xp now : Int) (s : DBState) :
    set_xp uid xp now s =
      if uid = "" then (SetResult.badRequest "Missing userId or xp", s)
      else if xp < 0 then (SetResult.badRequest "XP must be a non-negative integer", s)
      else
        match alookup uid s.xp_data with
        | none => (SetResult.notFound, s)
        | some row =>
          (SetResult.success xp now,
            if xp - row.xp ≠ 0 then
              { s with
                xp_data := aupsert uid { row with xp := xp, last_updated := now } s.xp_data,
                xp_history := s.xp_history ++ [⟨uid, xp - row.xp, now⟩] }
            else
              { s with
                xp_data := aupsert uid { row with xp := xp, last_updated := now } s.xp_data }) := by
  unfold set_xp
  rcases alookup uid s.xp_data with _ | row <;> rfl

/-! ### Ledger-invariant preservation building blocks -/

theorem ledger_step_append (s s' : DBState) (uid : String) (r : BalanceRecord) (e : HistEntry)
    (hinv : LedgerInvariant s)
    (hxd : s'.xp_data = aupsert uid r s.xp_data)
    (hxh : s'.xp_history = s.xp_history ++ [e])
    (huid : e.userId = uid)
    (hdelta : e.xp_change = r.xp - currentXp uid s) :
    LedgerInvariant s' := by
  intro u
  rw [hxh, historySum_append]
  by_cases h : u = uid
  · subst h
    have h2 : currentXp u s' = r.xp := by
      simp only [currentXp, hxd]
      rw [alookup_aupsert_self]
    rw [h2, huid, if_pos rfl, hdelta, hinv u]
    ring
  · have h2 : currentXp u s' = currentXp u s := by
      simp only [currentXp, hxd]
      rw [alookup_aupsert_ne uid u r s.xp_data h]
    have hne : ¬ e.userId = u := by rw [huid]; exact fun hh => h hh.symm
    rw [h2, if_neg hne, add_zero]
    exact hinv u

theorem ledger_step_keep (s s' : DBState) (uid : String) (r : BalanceRecord)
    (hinv : LedgerInvariant s)
    (hxd : s'.xp_data = aupsert uid r s.xp_data)
    (hxh : s'.xp_history = s.xp_history)
    (hxp : r.xp = currentXp uid s) :
    LedgerInvariant s' := by
  intro u
  rw [hxh]
  by_cases h : u = uid
  · subst h
    have h2 : currentXp u s' = r.xp := by
      simp only [currentXp, hxd]
      rw [alookup_aupsert_self]
    rw [h2, hxp]
    exact hinv u
  · have h2 : currentXp u s' = currentXp u s := by
      simp only [currentXp, hxd]
      rw [alookup_aupsert_ne uid u r s.xp_data h]
    rw [h2]
    exact hinv u

theorem update_xp_preserves_ledger (uid name : String) (xp : Int) (off : Option String)
    (t : Int) (s : DBState) (hinv : LedgerInvariant s) :
    LedgerInvariant (update_xp uid name xp off t s).2 := by
  rw [update_xp_eq]
  by_cases h1 : uid = "" ∨ name = ""
  · rw [if_pos h1]; exact hinv
  rw [if_neg h1]
  by_cases h2 : xp < 0
  · rw [if_pos h2]; exact hinv
  rw [if_neg h2]
  by_cases h3 : t ≤ oldTimestamp uid s
  · rw [if_pos h3]; exact hinv
  rw [if_neg h3]
  by_cases h4 : xp - currentXp uid s ≠ 0
  · rw [if_pos h4]
    exact ledger_step_append s _ uid ⟨name, xp, off, t⟩ ⟨uid, xp - currentXp uid s, t⟩
      hinv rfl rfl rfl rfl
  · rw [if_neg h4]
    exact ledger_step_keep s _ uid ⟨name, xp, off, t⟩ hinv rfl rfl
      (sub_eq_zero.mp (not_not.mp h4))

theorem set_xp_preserves_ledger (uid : String) (xp now : Int) (s : DBState)
    (hinv : LedgerInvariant s) : LedgerInvariant (set_xp uid xp now s).2 := by
  rw [set_xp_eq]
  by_cases h1 : uid = ""
  · rw [if_pos h1]; exact hinv
  rw [if_neg h1]
  by_cases h2 : xp < 0
  · rw [if_pos h2]; exact hinv
  rw [if_neg h2]
  rcases hrow : alookup uid s.xp_data with _ | row
  · simp only [hrow]; exact hinv
  simp only [hrow]
  by_cases h4 : xp - row.xp ≠ 0
  · rw [if_pos h4]
    exact ledger_step_append s _ uid { row with xp := xp, last_updated := now }
      ⟨uid, xp - row.xp, now⟩ hinv rfl rfl rfl
      (by rw [currentXp_eq_some uid s row hrow])
  · rw [if_neg h4]
    have hx : xp = row.xp := sub_eq_zero.mp (not_not.mp h4)
    exact ledger_step_keep s _ uid { row with xp := xp, last_updated := now } hinv rfl rfl
      (by rw [currentXp_eq_some uid s row hrow]; exact hx)

theorem redeem_xp_preserves_ledger (d : String) (now : Int) (s : DBState)
    (hinv : LedgerInvariant s) : LedgerInvariant (redeem_xp d now s).2 := by
  unfold redeem_xp
  rcases hm : alookup d s.user_mappings with _ | R
  · exact hinv
  dsimp only
  rcases hs : alookup d s.stored_xp with _ | k
  · exact hinv
  dsimp only
  by_cases hk : k ≤ 0
  · rw [if_pos hk]; exact hinv
  rw [if_neg hk]
  rcases hr : alookup R s.xp_data with _ | row
  · exact hinv
  dsimp only
  exact ledger_step_append s _ R { row with xp := row.xp + k, last_updated := now }
    ⟨R, k, now⟩ hinv rfl rfl rfl
    (by rw [currentXp_eq_some R s row hr]; ring)

theorem redeem_xp_ingame_preserves_ledger (r : String) (now : Int) (s : DBState)
    (hinv : LedgerInvariant s) : LedgerInvariant (redeem_xp_ingame r now s).2 := by
  unfold redeem_xp_ingame
  by_cases h0 : r = ""
  · rw [if_pos h0]; exact hinv
  rw [if_neg h0]
  rcases hm : afindRev r s.user_mappings with _ | d
  · exact hinv
  dsimp only
  rcases hs : alookup d s.stored_xp with _ | k
  · exact hinv
  dsimp only
  by_cases hk : k ≤ 0
  · rw [if_pos hk]; exact hinv
  rw [if_neg hk]
  rcases hr : alookup r s.xp_data with _ | row
  · exact hinv
  dsimp only
  exact ledger_step_append s _ r { row with xp := row.xp + k, last_updated := now }
    ⟨r, k, now⟩ hinv rfl rfl rfl
    (by rw [currentXp_eq_some r s row hr]; ring)

/-! ### Claim theorems -/

/-- Claim C1: for an identity that already has a Balance Record, a call to
`update_xp` with a valid payload whose event timestamp is at most the stored
`last_updated` returns the Ignored outcome and leaves the whole database
state unchanged — the record's fields, the history, and everything else. -/
theorem update_xp_stale_ignored (uid name : String) (xp t : Int) (off : Option String)
    (s : DBState) (rec : BalanceRecord)
    (huid : uid ≠ "") (hname : name ≠ "") (hxp : 0 ≤ xp)
    (hrec : alookup uid s.xp_data = some rec) (ht : t ≤ rec.last_updated) :
    update_xp uid name xp off t s = (UpdateResult.ignored, s) := by
  rw [update_xp_eq]
  rw [if_neg (by simp [huid, hname]), if_neg (not_lt.mpr hxp)]
  rw [if_pos]
  unfold oldTimestamp
  rw [hrec]
  exact ht

/-- Witness for C1 at a concrete state: a record at timestamp 5 rejects a
same-value update at timestamp 3. -/
theorem update_xp_stale_ignored_witness :
    update_xp "u" "n" 7 none 3 ⟨[("u", ⟨"n", 10, none, 5⟩)], [], [], []⟩ =
      (UpdateResult.ignored, ⟨[("u", ⟨"n", 10, none, 5⟩)], [], [], []⟩) :=
  update_xp_stale_ignored "u" "n" 7 3 none _ ⟨"n", 10, none, 5⟩
    (by decide) (by decide) (by decide) (by decide) (by decide)

/-- Claim C2 counterexample: on an identity with no Balance Record, a first
`update_xp` with event timestamp 0 is NOT accepted — the code defaults the
missing `old_timestamp` to 0 (not a minus-infinity sentinel), so the stale
rule fires and the call returns Ignored with no record created. -/
theorem first_update_zero_timestamp_ignored :
    update_xp "u" "n" 10 none 0 ⟨[], [], [], []⟩ =
      (UpdateResult.ignored, ⟨[], [], [], []⟩) := by decide

/-- Claim C2 (amended): an absent Balance Record is treated as having
`old_timestamp = 0`, so a valid first `update_xp` for an identity is
accepted exactly when its event timestamp is positive; with a timestamp
at most 0 the stale rule fires even though no record exists. -/
theorem first_update_accepted_iff_pos (uid name : String) (xp t : Int)
    (off : Option String) (s : DBState)
    (huid : uid ≠ "") (hname : name ≠ "") (hxp : 0 ≤ xp)
    (habs : alookup uid s.xp_data = none) :
    (0 < t → (update_xp uid name xp off t s).1 = UpdateResult.success xp t) ∧
    (t ≤ 0 → update_xp uid name xp off t s = (UpdateResult.ignored, s)) := by
  have hts : oldTimestamp uid s = 0 := by unfold oldTimestamp; rw [habs]
  rw [update_xp_eq, if_neg (by simp [huid, hname]), if_neg (not_lt.mpr hxp), hts]
  constructor
  · intro hpos
    rw [if_neg (not_le.mpr hpos)]
  · intro hneg
    rw [if_pos hneg]

/-- Witness for C2 (amended): from the empty state, a first update at
timestamp 1 is accepted, and one at timestamp -2 is ignored. -/
theorem first_update_accepted_iff_pos_witness :
    (update_xp "u" "n" 10 none 1 ⟨[], [], [], []⟩).1 = UpdateResult.success 10 1 ∧
    update_xp "u" "n" 10 none (-2) ⟨[], [], [], []⟩ =
      (UpdateResult.ignored, ⟨[], [], [], []⟩) :=
  ⟨(first_update_accepted_iff_pos "u" "n" 10 1 none ⟨[], [], [], []⟩
      (by decide) (by decide) (by decide) rfl).1 (by decide),
   (first_update_accepted_iff_pos "u" "n" 10 (-2) none ⟨[], [], [], []⟩
      (by decide) (by decide) (by decide) rfl).2 (by decide)⟩

/-- Claim C6 counterexample: with 5 already stashed for sender S,
`store_xp S 7` leaves 12 in the stash table but the response's
`stored_xp` field carries 7 — the amount of this call, not the new
accumulated total 12 the claim promises. -/
theorem store_xp_returns_amount_not_total :
    store_xp "S" 7 ⟨[], [], [("S", 5)], []⟩ =
      (StoreResult.success 7, ⟨[], [], [("S", 12)], []⟩) ∧ (7 : Int) ≠ 5 + 7 := by
  decide

/-- Claim C6 (amended): for an existing Stash Entry, `store_xp` increments
the stored total to `prior + amount` but returns the amount passed in this
call, not the accumulated total. -/
theorem store_xp_accumulates_returns_amount (d : String) (a p : Int) (s : DBState)
    (hd : d ≠ "") (ha : 0 ≤ a) (hp : alookup d s.stored_xp = some p) :
    store_xp d a s =
      (StoreResult.success a, { s with stored_xp := aupsert d (p + a) s.stored_xp }) := by
  unfold store_xp
  rw [if_neg hd, if_neg (not_lt.mpr ha), hp]

/-- Witness for C6 (amended): stashing 7 on top of 5 stores 12 and
returns 7. -/
theorem store_xp_accumulates_returns_amount_witness :
    store_xp "S" 7 ⟨[], [], [("S", 5), ("T", 1)], []⟩ =
      (StoreResult.success 7, ⟨[], [], [("S", 12), ("T", 1)], []⟩) :=
  store_xp_accumulates_returns_amount "S" 7 5 ⟨[], [], [("S", 5), ("T", 1)], []⟩
    (by decide) (by decide) (by decide)

/-- Claim C7: two stash calls for the same sender compose additively with
no lost update; from a fresh (absent) entry, `store_xp S a` then
`store_xp S b` leaves `a + b`, and the opposite order leaves `b + a`,
which is the same total. -/
theorem stash_additive_any_order (S : String) (a b : Int) (s : DBState)
    (hS : S ≠ "") (ha : 0 ≤ a) (hb : 0 ≤ b)
    (hfresh : alookup S s.stored_xp = none) :
    alookup S ((store_xp S b (store_xp S a s).2).2).stored_xp = some (a + b) ∧
    alookup S ((store_xp S a (store_xp S b s).2).2).stored_xp = some (b + a) ∧
    a + b = b + a := by
  refine ⟨?_, ?_, add_comm a b⟩
  · simp [store_xp, hS, not_lt.mpr ha, not_lt.mpr hb, hfresh, alookup_aupsert_self]
  · simp [store_xp, hS, not_lt.mpr ha, not_lt.mpr hb, hfresh, alookup_aupsert_self]

/-- Witness for C7: stashing 5 and 7 in either order from an empty stash
yields 12. -/
theorem stash_additive_any_order_witness :
    alookup "S" ((store_xp "S" 7 (store_xp "S" 5 ⟨[], [], [], []⟩).2).2).stored_xp =
      some (5 + 7) ∧
    alookup "S" ((store_xp "S" 5 (store_xp "S" 7 ⟨[], [], [], []⟩).2).2).stored_xp =
      some (7 + 5) ∧
    (5 : Int) + 7 = 7 + 5 :=
  stash_additive_any_order "S" 5 7 ⟨[], [], [], []⟩ (by decide) (by decide) (by decide) rfl

/-- Claim C8: redeeming for a sender with no Identity Link fails with the
Unverified outcome and the whole database state is unchanged. -/
theorem redeem_unverified_no_mutation (S : String) (now : Int) (s : DBState)
    (h : alookup S s.user_mappings = none) :
    redeem_xp S now s = (RedeemResult.unverified, s) := by
  unfold redeem_xp
  rw [h]

/-- Witness for C8: an unlinked sender in a nonempty state gets Unverified
and mutates nothing. -/
theorem redeem_unverified_no_mutation_witness :
    redeem_xp "S" 9 ⟨[("R", ⟨"r", 10, none, 5⟩)], [], [("S", 4)], [("T", "R")]⟩ =
      (RedeemResult.unverified,
        ⟨[("R", ⟨"r", 10, none, 5⟩)], [], [("S", 4)], [("T", "R")]⟩) :=
  redeem_unverified_no_mutation "S" 9 _ (by decide)

/-- Claim C3: the ledger-replay invariant — the deltas recorded in
`xp_history` for an identity sum to its current balance, starting from 0 —
is preserved by every `update_xp`, every `set_xp` (the absolute set), and
every redemption along either path; moreover the replay sum is the same in
any order of the entries (in particular, timestamp order). -/
theorem ledger_replay_invariant (s : DBState) (hinv : LedgerInvariant s) :
    (∀ uid name xp off t, LedgerInvariant (update_xp uid name xp off t s).2) ∧
    (∀ uid xp now, LedgerInvariant (set_xp uid xp now s).2) ∧
    (∀ d now, LedgerInvariant (redeem_xp d now s).2) ∧
    (∀ r now, LedgerInvariant (redeem_xp_ingame r now s).2) ∧
    (∀ l, s.xp_history.Perm l → ∀ uid, historySum uid l = currentXp uid s) := by
  refine ⟨?_, ?_, ?_, ?_, ?_⟩
  · intro uid name xp off t
    exact update_xp_preserves_ledger uid name xp off t s hinv
  · intro uid xp now
    exact set_xp_preserves_ledger uid xp now s hinv
  · intro d now
    exact redeem_xp_preserves_ledger d now s hinv
  · intro r now
    exact redeem_xp_ingame_preserves_ledger r now s hinv
  · intro l hperm uid
    rw [← historySum_perm uid s.xp_history l hperm]
    exact hinv uid

/-- Witness for C3: the empty state satisfies the invariant, and it still
holds after an accepted first update. -/
theorem ledger_replay_invariant_witness :
    LedgerInvariant ⟨[], [], [], []⟩ ∧
    LedgerInvariant (update_xp "u" "n" 5 none 1 ⟨[], [], [], []⟩).2 :=
  ⟨fun _ => rfl,
   (ledger_replay_invariant ⟨[], [], [], []⟩ (fun _ => rfl)).1 "u" "n" 5 none 1⟩

/-- Claim C4: with sender S linked to receiver R, a positive stash for S,
and a Balance Record for R, `redeem_xp` succeeds, credits R by the full
stashed amount, clears S's Stash Entry, and an immediate second
`redeem_xp` for S returns NothingToRedeem and changes nothing. -/
theorem redeem_success_then_idempotent (S R : String) (k now now2 : Int)
    (row : BalanceRecord) (s : DBState)
    (hm : alookup S s.user_mappings = some R)
    (hs : alookup S s.stored_xp = some k) (hk : 0 < k)
    (hr : alookup R s.xp_data = some row) :
    (redeem_xp S now s).1 = RedeemResult.success k (row.xp + k) ∧
    currentXp R (redeem_xp S now s).2 = row.xp + k ∧
    alookup S (redeem_xp S now s).2.stored_xp = none ∧
    redeem_xp S now2 (redeem_xp S now s).2 =
      (RedeemResult.nothingToRedeem, (redeem_xp S now s).2) := by
  have hred : redeem_xp S now s =
      (RedeemResult.success k (row.xp + k),
        { s with
          xp_data := aupsert R { row with xp := row.xp + k, last_updated := now } s.xp_data,
          xp_history := s.xp_history ++ [⟨R, k, now⟩],
          stored_xp := aerase S s.stored_xp }) := by
    unfold redeem_xp
    rw [hm]
    dsimp only
    rw [hs]
    dsimp only
    rw [if_neg (not_le.mpr hk), hr]
  refine ⟨by rw [hred], ?_, ?_, ?_⟩
  · rw [hred]
    exact currentXp_eq_some R _ { row with xp := row.xp + k, last_updated := now }
      (alookup_aupsert_self R { row with xp := row.xp + k, last_updated := now } s.xp_data)
  · rw [hred]
    exact alookup_aerase_self S s.stored_xp
  · rw [hred]
    unfold redeem_xp
    dsimp only
    rw [hm]
    dsimp only
    rw [alookup_aerase_self S s.stored_xp]

/-- Witness for C4: R at 10 XP, S with stash 4 — first redeem yields 14
and an empty stash, second redeem is a NothingToRedeem no-op. -/
theorem redeem_success_then_idempotent_witness :
    (redeem_xp "S" 100 ⟨[("R", ⟨"r", 10, none, 0⟩)], [], [("S", 4)], [("S", "R")]⟩).1 =
      RedeemResult.success 4 14 ∧
    currentXp "R"
      (redeem_xp "S" 100 ⟨[("R", ⟨"r", 10, none, 0⟩)], [], [("S", 4)], [("S", "R")]⟩).2 = 14 ∧
    alookup "S"
      (redeem_xp "S" 100 ⟨[("R", ⟨"r", 10, none, 0⟩)], [], [("S", 4)], [("S", "R")]⟩).2.stored_xp =
      none ∧
    redeem_xp "S" 101
      (redeem_xp "S" 100 ⟨[("R", ⟨"r", 10, none, 0⟩)], [], [("S", 4)], [("S", "R")]⟩).2 =
      (RedeemResult.nothingToRedeem,
        (redeem_xp "S" 100 ⟨[("R", ⟨"r", 10, none, 0⟩)], [], [("S", 4)], [("S", "R")]⟩).2) :=
  redeem_success_then_idempotent "S" "R" 4 100 101 ⟨"r", 10, none, 0⟩
    ⟨[("R", ⟨"r", 10, none, 0⟩)], [], [("S", 4)], [("S", "R")]⟩
    (by decide) (by decide) (by decide) (by decide)

/-- Claim C5 counterexample: redemption does NOT guarantee a generated
timestamp above the receiver's stored `last_updated`. With R's record at
`last_updated = 100` and wall clock 50, the redemption succeeds and writes
`last_updated = 50 < 100`, so `last_updated` decreases. -/
theorem redeem_nonmonotonic_timestamp :
    (redeem_xp "S" 50 ⟨[("R", ⟨"r", 10, none, 100⟩)], [], [("S", 4)], [("S", "R")]⟩).1 =
      RedeemResult.success 4 14 ∧
    oldTimestamp "R"
      ⟨[("R", ⟨"r", 10, none, 100⟩)], [], [("S", 4)], [("S", "R")]⟩ = 100 ∧
    oldTimestamp "R"
      (redeem_xp "S" 50 ⟨[("R", ⟨"r", 10, none, 100⟩)], [], [("S", 4)], [("S", "R")]⟩).2 = 50 ∧
    (50 : Int) < 100 := by decide

/-- Claim C5 (amended): a redemption is indeed never rejected as stale —
the code performs no timestamp comparison at all — but the generated
timestamp is the raw wall clock: whatever `now` is, even one at or below
the receiver's stored `last_updated`, the redemption succeeds and simply
overwrites `last_updated` with `now`, so monotonicity is not guaranteed. -/
theorem redeem_ignores_timestamps (S R : String) (k now : Int)
    (row : BalanceRecord) (s : DBState)
    (hm : alookup S s.user_mappings = some R)
    (hs : alookup S s.stored_xp = some k) (hk : 0 < k)
    (hr : alookup R s.xp_data = some row) :
    (redeem_xp S now s).1 = RedeemResult.success k (row.xp + k) ∧
    oldTimestamp R (redeem_xp S now s).2 = now := by
  have hred : redeem_xp S now s =
      (RedeemResult.success k (row.xp + k),
        { s with
          xp_data := aupsert R { row with xp := row.xp + k, last_updated := now } s.xp_data,
          xp_history := s.xp_history ++ [⟨R, k, now⟩],
          stored_xp := aerase S s.stored_xp }) := by
    unfold redeem_xp
    rw [hm]
    dsimp only
    rw [hs]
    dsimp only
    rw [if_neg (not_le.mpr hk), hr]
  refine ⟨by rw [hred], ?_⟩
  rw [hred]
  unfold oldTimestamp
  dsimp only
  rw [alookup_aupsert_self R { row with xp := row.xp + k, last_updated := now } s.xp_data]

/-- Witness for C5 (amended): with the receiver's record at timestamp 100
and wall clock 7, the redemption succeeds and `last_updated` becomes 7. -/
theorem redeem_ignores_timestamps_witness :
    (redeem_xp "A" 7 ⟨[("B", ⟨"b", 3, none, 100⟩)], [], [("A", 2)], [("A", "B")]⟩).1 =
      RedeemResult.success 2 5 ∧
    oldTimestamp "B"
      (redeem_xp "A" 7 ⟨[("B", ⟨"b", 3, none, 100⟩)], [], [("A", 2)], [("A", "B")]⟩).2 = 7 :=
  redeem_ignores_timestamps "A" "B" 2 7 ⟨"b", 3, none, 100⟩
    ⟨[("B", ⟨"b", 3, none, 100⟩)], [], [("A", 2)], [("A", "B")]⟩
    (by decide) (by decide) (by decide) (by decide)

/-- Claim C9: applying the same xp value twice with strictly increasing
timestamps (the first exceeding the stored timestamp, so both are
accepted): the second call succeeds, rewrites the record with the new
timestamp (and name/side data), and appends nothing to the history —
a History Entry is appended only on a nonzero delta. -/
theorem second_same_xp_no_history (uid n1 n2 : String) (xp t1 t2 : Int)
    (o1 o2 : Option String) (s : DBState)
    (huid : uid ≠ "") (hn1 : n1 ≠ "") (hn2 : n2 ≠ "") (hxp : 0 ≤ xp)
    (ht1 : oldTimestamp uid s < t1) (ht2 : t1 < t2) :
    (update_xp uid n1 xp o1 t1 s).1 = UpdateResult.success xp t1 ∧
    (update_xp uid n2 xp o2 t2 (update_xp uid n1 xp o1 t1 s).2).1 =
      UpdateResult.success xp t2 ∧
    alookup uid (update_xp uid n2 xp o2 t2 (update_xp uid n1 xp o1 t1 s).2).2.xp_data =
      some ⟨n2, xp, o2, t2⟩ ∧
    (update_xp uid n2 xp o2 t2 (update_xp uid n1 xp o1 t1 s).2).2.xp_history =
      (update_xp uid n1 xp o1 t1 s).2.xp_history := by
  have h1 : update_xp uid n1 xp o1 t1 s =
      (UpdateResult.success xp t1,
        if xp - currentXp uid s ≠ 0 then
          { s with xp_data := aupsert uid ⟨n1, xp, o1, t1⟩ s.xp_data,
                   xp_history := s.xp_history ++ [⟨uid, xp - currentXp uid s, t1⟩] }
        else
          { s with xp_data := aupsert uid ⟨n1, xp, o1, t1⟩ s.xp_data }) := by
    rw [update_xp_eq, if_neg (by simp [huid, hn1]), if_neg (not_lt.mpr hxp),
      if_neg (not_le.mpr ht1)]
  have hxd : (update_xp uid n1 xp o1 t1 s).2.xp_data =
      aupsert uid ⟨n1, xp, o1, t1⟩ s.xp_data := by
    rw [h1]
    by_cases hd : xp - currentXp uid s ≠ 0
    · rw [if_pos hd]
    · rw [if_neg hd]
  have hlook : alookup uid (update_xp uid n1 xp o1 t1 s).2.xp_data =
      some ⟨n1, xp, o1, t1⟩ := by
    rw [hxd]
    exact alookup_aupsert_self uid _ s.xp_data
  have hcur : currentXp uid (update_xp uid n1 xp o1 t1 s).2 = xp :=
    currentXp_eq_some uid _ _ hlook
  have hts : oldTimestamp uid (update_xp uid n1 xp o1 t1 s).2 = t1 := by
    unfold oldTimestamp
    rw [hlook]
  have h2 : update_xp uid n2 xp o2 t2 (update_xp uid n1 xp o1 t1 s).2 =
      (UpdateResult.success xp t2,
        { (update_xp uid n1 xp o1 t1 s).2 with
          xp_data := aupsert uid ⟨n2, xp, o2, t2⟩ (update_xp uid n1 xp o1 t1 s).2.xp_data }) := by
    rw [update_xp_eq, if_neg (by simp [huid, hn2]), if_neg (not_lt.mpr hxp), hts,
      if_neg (not_le.mpr ht2), hcur]
    rw [if_neg (by simp)]
  refine ⟨by rw [h1], by rw [h2], ?_, by rw [h2]⟩
  rw [h2]
  exact alookup_aupsert_self uid _ _

/-- Witness for C9: from the empty state, xp 5 at timestamps 1 then 2 —
both accepted, record ends at timestamp 2, history gets one entry only
(from the first call). -/
theorem second_same_xp_no_history_witness :
    (update_xp "u" "a" 5 none 1 ⟨[], [], [], []⟩).1 = UpdateResult.success 5 1 ∧
    (update_xp "u" "b" 5 none 2 (update_xp "u" "a" 5 none 1 ⟨[], [], [], []⟩).2).1 =
      UpdateResult.success 5 2 ∧
    alookup "u"
      (update_xp "u" "b" 5 none 2 (update_xp "u" "a" 5 none 1 ⟨[], [], [], []⟩).2).2.xp_data =
      some ⟨"b", 5, none, 2⟩ ∧
    (update_xp "u" "b" 5 none 2 (update_xp "u" "a" 5 none 1 ⟨[], [], [], []⟩).2).2.xp_history =
      (update_xp "u" "a" 5 none 1 ⟨[], [], [], []⟩).2.xp_history :=
  second_same_xp_no_history "u" "a" "b" 5 1 2 none none ⟨[], [], [], []⟩
    (by decide) (by decide) (by decide) (by decide) (by decide) (by decide)

/-- Claim C10 counterexample: the two redemption paths are not equivalent.
With two senders S1 and S2 both linked to receiver R and only S2 holding a
stash, the sender path `redeem_xp S2` succeeds while the receiver path
`redeem_xp_ingame R` resolves R back to the first matching sender S1 and
returns NothingToRedeem. -/
theorem redeem_paths_diverge :
    (redeem_xp "S2" 100
        ⟨[("R", ⟨"r", 10, none, 0⟩)], [], [("S2", 5)], [("S1", "R"), ("S2", "R")]⟩).1 =
      RedeemResult.success 5 15 ∧
    (redeem_xp_ingame "R" 100
        ⟨[("R", ⟨"r", 10, none, 0⟩)], [], [("S2", 5)], [("S1", "R"), ("S2", "R")]⟩).1 =
      RedeemResult.nothingToRedeem ∧
    RedeemResult.success 5 15 ≠ RedeemResult.nothingToRedeem := by decide

/-- Claim C10 (amended): the sender-initiated and receiver-initiated
redemption paths agree whenever the link is reverse-unique — S is the only
sender mapped to R — and R is nonempty (the ingame path rejects a falsy
id): then both produce identical results and identical final states. -/
theorem redeem_paths_equiv_of_unique (S R : String) (now : Int) (s : DBState)
    (hR : R ≠ "")
    (hm : alookup S s.user_mappings = some R)
    (huniq : ∀ p ∈ s.user_mappings, p.2 = R → p.1 = S) :
    redeem_xp_ingame R now s = redeem_xp S now s := by
  have hrev : afindRev R s.user_mappings = some S :=
    afindRev_eq_of_unique S R s.user_mappings hm huniq
  unfold redeem_xp_ingame redeem_xp
  rw [if_neg hR, hrev, hm]

/-- Witness for C10 (amended): with the single link S → R both paths give
the same call-by-call result on a concrete state. -/
theorem redeem_paths_equiv_of_unique_witness :
    redeem_xp_ingame "R" 9 ⟨[("R", ⟨"r", 1, none, 0⟩)], [], [("S", 2)], [("S", "R")]⟩ =
      redeem_xp "S" 9 ⟨[("R", ⟨"r", 1, none, 0⟩)], [], [("S", 2)], [("S", "R")]⟩ :=
  redeem_paths_equiv_of_unique "S" "R" 9
    ⟨[("R", ⟨"r", 1, none, 0⟩)], [], [("S", 2)], [("S", "R")]⟩
    (by decide) (by decide) (by decide)

end AkDataBot
